import Mathlib

/-!
Shallow embedding of src/expense_report.py (class ExpenseTracker).

Python floats are modelled as exact rationals.  The two-decimal display
formatting of track_budget and the decimal rendering of floats are display
concerns that no claim depends on; where a CSV cell holds the textual
rendering str(x) of a float x we keep the numeric value (constructor
Cell.num), relying on CPython's documented guarantee float(str(x)) == x.
Console printing is modelled by explicit result values (AddResult,
LoadOutcome, ViewLine).
-/

/-- In-memory expense record: the dicts stored in ExpenseTracker.expenses.
add_expense always stores all four fields; load_expenses can store records
whose date, category or description is Python None (a CSV row shorter than
the header row: csv.DictReader fills the missing columns with its restval
None), modelled here by none.  The amount field is always numeric: both
add_expense and load_expenses pass it through float() before the record is
appended.  Extra columns beyond the header (DictReader's restkey) are not
modelled; no claim concerns them. -/
structure ExpenseRecord where
  date : Option String
  category : Option String
  amount : ℚ
  description : Option String
deriving DecidableEq

/-- The ExpenseTracker state: __init__ sets expenses = [] and budget = 0.0. -/
structure ExpenseTracker where
  expenses : List ExpenseRecord
  budget : ℚ
deriving DecidableEq

/-- The list cs split at every occurrence of sep, with the same contract as
Python str.split on a single character (and Lean's String.splitOn), written
by structural recursion so that the kernel can evaluate it. -/
def splitOnChar (sep : Char) : List Char → List (List Char)
  | [] => [[]]
  | c :: rest =>
    let r := splitOnChar sep rest
    if c = sep then [] :: r
    else
      match r with
      | g :: gs => (c :: g) :: gs
      | [] => [[c]]

/-- The natural number denoted by a list of decimal digit characters. -/
def charsToNat (cs : List Char) : Nat :=
  cs.foldl (fun a c => a * 10 + (c.toNat - 48)) 0

/-- Every character of cs is a decimal digit. -/
def allDigits (cs : List Char) : Bool := cs.all Char.isDigit

/-- The proleptic-Gregorian leap-year rule used by Python's datetime. -/
def isLeapYear (y : Nat) : Bool :=
  y % 4 == 0 && (y % 100 != 0 || y % 400 == 0)

/-- Days in month m (1..12) of year y, as in Python's datetime. -/
def daysInMonth (y m : Nat) : Nat :=
  if m == 2 then (if isLeapYear y then 29 else 28)
  else if m == 4 || m == 6 || m == 9 || m == 11 then 30
  else 31

/-- datetime.strptime(s, '%Y-%m-%d') succeeds (add_expense line 45).
CPython's _strptime matches %Y as exactly four digits and %m and %d as one
OR two digits (regexes 1[0-2]|0[1-9]|[1-9] for the month and
3[01]|[12]\d|0[1-9]|[1-9] for the day), requires the whole string to be
consumed, and the datetime constructor then requires the year to be at
least 1 and the day to exist in that month of that year.  Because digit
characters and the literal hyphen are disjoint, this acceptance is
equivalent to splitting the string at hyphens as done here.  Note that the
month and the day may be UNPADDED single digits: strptime accepts
2024-1-1. -/
def strptimeValidYMD (s : String) : Bool :=
  match splitOnChar '-' s.data with
  | [y, m, d] =>
    allDigits y && (y.length == 4) &&
    allDigits m && (m.length == 1 || m.length == 2) &&
    allDigits d && (d.length == 1 || d.length == 2) &&
    (let yn := charsToNat y
     let mn := charsToNat m
     let dn := charsToNat d
     decide (1 ≤ yn) && decide (1 ≤ mn) && decide (mn ≤ 12) &&
     decide (1 ≤ dn) && decide (dn ≤ daysInMonth yn mn))
  | _ => false

/-- Formalisation of the claim's own words, for comparison with the code's
acceptance strptimeValidYMD: the date matches YYYY-MM-DD (a four-digit
year, a TWO-digit month and a TWO-digit day separated by hyphens) and
denotes a real calendar date. -/
def specMatchesYYYYMMDD (s : String) : Bool :=
  match splitOnChar '-' s.data with
  | [y, m, d] =>
    allDigits y && (y.length == 4) &&
    allDigits m && (m.length == 2) &&
    allDigits d && (d.length == 2) &&
    (let yn := charsToNat y
     let mn := charsToNat m
     let dn := charsToNat d
     decide (1 ≤ yn) && decide (1 ≤ mn) && decide (mn ≤ 12) &&
     decide (1 ≤ dn) && decide (dn ≤ daysInMonth yn mn))
  | _ => false

/-- float(s) without sign and whitespace: digits with at most one decimal
point, at least one digit overall. -/
def pyFloatCore (cs : List Char) : Option ℚ :=
  match splitOnChar '.' cs with
  | [i] =>
    if (i.length != 0) && allDigits i then some ((charsToNat i : ℚ)) else none
  | [i, f] =>
    if (i.length != 0 || f.length != 0) && allDigits i && allDigits f then
      some ((charsToNat i : ℚ) + (charsToNat f : ℚ) / (10 : ℚ) ^ f.length)
    else none
  | _ => none

/-- float(s) for the plain decimal strings this program meets: optional
surrounding whitespace, optional sign, then digits with at most one decimal
point.  The full CPython grammar additionally accepts exponents,
underscores between digits, inf and nan; no theorem below depends on those
forms and they are not modelled. -/
def pyFloat (s : String) : Option ℚ :=
  let t := ((s.data.dropWhile Char.isWhitespace).reverse.dropWhile
    Char.isWhitespace).reverse
  match t with
  | '-' :: rest => (pyFloatCore rest).map (fun q => -q)
  | '+' :: rest => pyFloatCore rest
  | _ => pyFloatCore t

/-- Outcome of add_expense and set_budget: the success print, or the print
of the except ValueError branch ("Invalid input! Please try again." /
"Invalid budget input. Please enter a valid number."). -/
inductive AddResult
  | success
  | validationError
deriving DecidableEq

/-- ExpenseTracker.add_expense (lines 41-59), at the level of parsed
values: date is the raw input line, amount is the result of
float(input(...)) with none modelling a ValueError (unparsable input).
The record is appended only after the date validates and the amount
parses; on ValueError nothing is mutated. -/
def addExpense (st : ExpenseTracker) (date category : String)
    (amount : Option ℚ) (description : String) : ExpenseTracker × AddResult :=
  if strptimeValidYMD date then
    match amount with
    | some q =>
      ({ st with expenses := st.expenses ++
          [{ date := some date, category := some category, amount := q,
             description := some description }] }, AddResult.success)
    | none => (st, AddResult.validationError)
  else (st, AddResult.validationError)

/-- Python truthiness of an optional string field: None and the empty
string are falsy, every other string is truthy. -/
def truthyStr (o : Option String) : Bool := !(o.getD "").isEmpty

/-- The test all(expense.values()) of view_expenses line 69: every stored
value is truthy.  The amount value is a float, which is falsy exactly when
it equals 0.0. -/
def recordTruthy (e : ExpenseRecord) : Bool :=
  truthyStr e.date && truthyStr e.category && !(decide (e.amount = 0)) &&
    truthyStr e.description

/-- One printed line of view_expenses. -/
inductive ViewLine
  | noExpenses
  | header
  | entry (e : ExpenseRecord)
  | incomplete
  | blank
deriving DecidableEq

/-- ExpenseTracker.view_expenses (lines 61-74).  noExpenses is the print
"No expenses to display.", header the banner "List of expenses:", entry e
the formatted Date/Category/Amount/Description line showing the four
fields of e, incomplete the print "Incomplete expense entry found,
skipping.", and blank the final empty print(). -/
def viewExpenses (st : ExpenseTracker) : List ViewLine :=
  if st.expenses.isEmpty then [ViewLine.noExpenses]
  else ViewLine.header ::
    (st.expenses.map fun e =>
      if recordTruthy e then ViewLine.entry e else ViewLine.incomplete)
    ++ [ViewLine.blank]

/-- ExpenseTracker.set_budget (lines 76-82): value is the result of
float(input(...)), none modelling a ValueError.  On success the budget is
overwritten with the parsed value; on ValueError nothing is mutated. -/
def setBudget (st : ExpenseTracker) (value : Option ℚ) :
    ExpenseTracker × AddResult :=
  match value with
  | some q => ({ st with budget := q }, AddResult.success)
  | none => (st, AddResult.validationError)

/-- What track_budget prints: the total, the number in the chosen message
(the overage for "You have exceeded your budget by ...", or the remainder
for "You have ... left for the month."), and which message was chosen. -/
structure BudgetReport where
  total : ℚ
  reported : ℚ
  isOverBudget : Bool
deriving DecidableEq

/-- ExpenseTracker.track_budget (lines 84-93): sums the amount of every
stored record and compares the total with the budget (the two-decimal
display formatting is not modelled; the exact values are kept). -/
def trackBudget (st : ExpenseTracker) : BudgetReport :=
  let total := st.expenses.foldl (fun acc e => acc + e.amount) 0
  if st.budget < total then
    { total := total, reported := total - st.budget, isOverBudget := true }
  else
    { total := total, reported := st.budget - total, isOverBudget := false }

/-- One CSV cell.  txt s is a cell holding the text s; num q is a cell
holding the rendering str(x) of the float x modelled by q (CPython
guarantees float(str(x)) == x, so the numeric value is kept instead of the
digits). -/
inductive Cell
  | txt (s : String)
  | num (q : ℚ)
deriving DecidableEq

/-- One CSV row, as the csv module hands it over: a list of cells.  The
csv layer itself (quoting of delimiters and quotes) round-trips field
contents and is abstracted. -/
abbrev CsvRow := List Cell

/-- A file as seen by save_expenses/load_expenses: absent (opening raises
FileNotFoundError) or a list of rows whose first row, when present, is the
header row. -/
inductive CsvFile
  | absent
  | file (rows : List CsvRow)
deriving DecidableEq

/-- The fixed header row written by save_expenses (DictWriter fieldnames
['date', 'category', 'amount', 'description']). -/
def stdHeader : CsvRow :=
  [Cell.txt "date", Cell.txt "category", Cell.txt "amount",
   Cell.txt "description"]

/-- The data row DictWriter writes for one record.  csv writes a None
value as the empty string, modelled by getD "". -/
def saveRow (e : ExpenseRecord) : CsvRow :=
  [Cell.txt (e.date.getD ""), Cell.txt (e.category.getD ""),
   Cell.num e.amount, Cell.txt (e.description.getD "")]

/-- ExpenseTracker.save_expenses (lines 95-104): overwrites the file with
the header row followed by one row per record, in order.  An operating
system I/O failure (the generic except branch) depends on the environment,
not on the program state, and is outside this model. -/
def saveExpenses (st : ExpenseTracker) : CsvFile :=
  CsvFile.file (stdHeader :: st.expenses.map saveRow)

/-- Outcome of load_expenses: the success print, the FileNotFoundError
print "No file found ... Starting with empty expense list.", or the
generic except print "Error loading expenses: ...". -/
inductive LoadOutcome
  | success
  | startingEmpty
  | loadError
deriving DecidableEq

/-- Index of the LAST cell of the row equal to txt name, if any:
csv.DictReader builds each row dict with dict(zip(fieldnames, row)), and a
dict keeps the last value for a repeated key. -/
def idxOfLast (name : String) : CsvRow → Option Nat
  | [] => none
  | c :: rest =>
    match idxOfLast name rest with
    | some i => some (i + 1)
    | none => if c = Cell.txt name then some 0 else none

/-- row[name] for a DictReader row dict with the given header: none is a
KeyError (name is not a fieldname); some none is the value None (the row
is shorter than the header, DictReader restval); some (some c) is the cell
at the column of name. -/
def cellLookup (header row : CsvRow) (name : String) : Option (Option Cell) :=
  match idxOfLast name header with
  | none => none
  | some i => some (row.get? i)

/-- float applied to the content of a cell. -/
def cellFloat : Cell → Option ℚ
  | Cell.num q => some q
  | Cell.txt s => pyFloat s

/-- float(row['amount']) at line 112: none when the lookup raises
KeyError, when the value is None (float(None) raises TypeError), or when
the text does not parse (ValueError); all three are caught by the same
generic except branch. -/
def amountValue : Option (Option Cell) → Option ℚ
  | none => none
  | some none => none
  | some (some c) => cellFloat c

/-- The optional-string field a looked-up cell contributes to the stored
record dict. -/
def textField : Option (Option Cell) → Option String
  | some (some (Cell.txt s)) => some s
  | some (some (Cell.num q)) => some (toString q)
  | _ => none

/-- The record appended for one parsed row (its dict with 'amount'
replaced by the parsed float q). -/
def loadRec (header row : CsvRow) (q : ℚ) : ExpenseRecord :=
  { date := textField (cellLookup header row "date")
    category := textField (cellLookup header row "category")
    amount := q
    description := textField (cellLookup header row "description") }

/-- The for-loop of load_expenses over the data rows: acc is the list of
records appended so far.  DictReader skips blank rows; on the first row
whose amount cannot be obtained and converted the exception aborts the
loop, keeping the records already appended. -/
def loadRows (header : CsvRow) (rows : List CsvRow)
    (acc : List ExpenseRecord) : List ExpenseRecord × LoadOutcome :=
  match rows with
  | [] => (acc, LoadOutcome.success)
  | row :: rest =>
    if row.isEmpty then loadRows header rest acc
    else
      match amountValue (cellLookup header row "amount") with
      | none => (acc, LoadOutcome.loadError)
      | some q => loadRows header rest (acc ++ [loadRec header row q])

/-- ExpenseTracker.load_expenses (lines 106-118): a missing file leaves
the state unchanged with the benign starting-empty message; an empty file
has no fieldnames row and yields no records; otherwise the first row is
the header and every parsed data row is appended to the EXISTING list. -/
def loadExpenses (f : CsvFile) (st : ExpenseTracker) :
    ExpenseTracker × LoadOutcome :=
  match f with
  | CsvFile.absent => (st, LoadOutcome.startingEmpty)
  | CsvFile.file [] => (st, LoadOutcome.success)
  | CsvFile.file (header :: rows) =>
    let p := loadRows header rows []
    ({ st with expenses := st.expenses ++ p.1 }, p.2)

/-- A record holding all four fields, as every record produced by a
successful add_expense does. -/
def wellFormed (e : ExpenseRecord) : Bool :=
  e.date.isSome && e.category.isSome && e.description.isSome

/-- A well-formed data row of the persisted format: exactly the four
columns, with a convertible amount cell. -/
def validRow (row : CsvRow) : Bool :=
  match row with
  | [_, _, a, _] => (cellFloat a).isSome
  | _ => false

/-- The files on disk, by path. -/
abbrev FileStore := String → CsvFile

/-- Overwriting the file at path (mode 'w' of save_expenses). -/
def fsWrite (fs : FileStore) (path : String) (content : CsvFile) :
    FileStore :=
  fun p => if p = path then content else fs p

/-- The state the menu loop acts on: the tracker object and the files. -/
structure World where
  tracker : ExpenseTracker
  fs : FileStore

/-- Result of one menu iteration: the new world, the input lines not yet
consumed, and whether option 7 terminated the loop. -/
structure StepResult where
  world : World
  stream : List String
  exited : Bool

/-- One input() line: the next pending line of the stream.  An exhausted
stream is modelled as returning empty lines (EOFError is not modelled). -/
def take1 : List String → String × List String
  | [] => ("", [])
  | x :: xs => (x, xs)

/-- One iteration of ExpenseTracker.menu (lines 120-151) after the choice
line has been read: dispatch on the choice, reading any operation-specific
input from the stream.  add_expense reads its four prompts lazily, so an
invalid date consumes one line and an unparsable amount three; options 5
and 6 read NO further input and call save_expenses()/load_expenses() with
the default path expenses.csv; option 7 saves to the default path and
exits; anything else prints "Invalid option. Please try again." without
side effects. -/
def menuStep (w : World) (choice : String) (stream : List String) :
    StepResult :=
  if choice = "1" then
    let p1 := take1 stream
    if strptimeValidYMD p1.1 then
      let p2 := take1 p1.2
      let p3 := take1 p2.2
      match pyFloat p3.1 with
      | some q =>
        let p4 := take1 p3.2
        { world := { tracker := (addExpense w.tracker p1.1 p2.1 (some q) p4.1).1,
                     fs := w.fs },
          stream := p4.2, exited := false }
      | none => { world := w, stream := p3.2, exited := false }
    else { world := w, stream := p1.2, exited := false }
  else if choice = "2" then
    { world := w, stream := stream, exited := false }
  else if choice = "3" then
    let p1 := take1 stream
    { world := { tracker := (setBudget w.tracker (pyFloat p1.1)).1, fs := w.fs },
      stream := p1.2, exited := false }
  else if choice = "4" then
    { world := w, stream := stream, exited := false }
  else if choice = "5" then
    { world := { tracker := w.tracker,
                 fs := fsWrite w.fs "expenses.csv" (saveExpenses w.tracker) },
      stream := stream, exited := false }
  else if choice = "6" then
    { world := { tracker := (loadExpenses (w.fs "expenses.csv") w.tracker).1,
                 fs := w.fs },
      stream := stream, exited := false }
  else if choice = "7" then
    { world := { tracker := w.tracker,
                 fs := fsWrite w.fs "expenses.csv" (saveExpenses w.tracker) },
      stream := stream, exited := true }
  else { world := w, stream := stream, exited := false }

/-- A concrete record used by witness theorems. -/
def sampleRec : ExpenseRecord :=
  { date := some "2024-01-01", category := some "Food", amount := 5,
    description := some "lunch" }

/-- A concrete one-record store used by witness theorems. -/
def sampleStore : ExpenseTracker := { expenses := [sampleRec], budget := 9 }

/-- A concrete well-formed data row used by witness theorems. -/
def sampleRow : CsvRow :=
  [Cell.txt "2024-01-01", Cell.txt "Food", Cell.num 5, Cell.txt "lunch"]

/-- Spot checks of the date model against known strptime behaviour: the
leap day 2024-02-29 is accepted and 2023-02-29 rejected, the claim
examples 2024-13-01 and 2024-02-30 are rejected, the year 0 is rejected,
and unpadded 2024-1-1 is accepted although it is not of the shape
YYYY-MM-DD. -/
theorem strptime_model_checks :
    strptimeValidYMD "2024-02-29" = true ∧
    strptimeValidYMD "2023-02-29" = false ∧
    strptimeValidYMD "2024-13-01" = false ∧
    strptimeValidYMD "2024-02-30" = false ∧
    strptimeValidYMD "0000-01-01" = false ∧
    strptimeValidYMD "2024-1-1" = true ∧
    specMatchesYYYYMMDD "2024-01-01" = true ∧
    specMatchesYYYYMMDD "2024-1-1" = false := by
  refine ⟨by decide, by decide, by decide, by decide, by decide, by decide,
    by decide, by decide⟩
/-- Folding the running total of track_budget equals the start value plus
the sum of the amounts. -/
theorem foldl_add_amount (l : List ExpenseRecord) (c : ℚ) :
    l.foldl (fun acc e => acc + e.amount) c = c + (l.map fun e => e.amount).sum := by
  induction l generalizing c with
  | nil => simp
  | cons e rest ih => simp [ih, add_assoc]

/-- C2: track_budget reports as total the sum of the amount field over all
stored records; when the total exceeds the budget it reports the overage
total - budget with the over-budget message, and otherwise (the equality
case included) the remainder budget - total with the not-over message. -/
theorem trackBudget_correct (st : ExpenseTracker) :
    (trackBudget st).total = (st.expenses.map fun e => e.amount).sum ∧
    (trackBudget st).isOverBudget =
      decide (st.budget < (st.expenses.map fun e => e.amount).sum) ∧
    (trackBudget st).reported =
      (if st.budget < (st.expenses.map fun e => e.amount).sum
       then (st.expenses.map fun e => e.amount).sum - st.budget
       else st.budget - (st.expenses.map fun e => e.amount).sum) := by
  simp only [trackBudget, foldl_add_amount, zero_add]
  split_ifs with h
  · simp [h]
  · simp [h]

/-- C6: load on an absent file leaves the tracker exactly as it was (an
empty store in particular stays empty) and yields the benign
starting-empty outcome, which is a different outcome from loadError. -/
theorem load_missing_file (st : ExpenseTracker) :
    loadExpenses CsvFile.absent st = (st, LoadOutcome.startingEmpty) ∧
    LoadOutcome.startingEmpty ≠ LoadOutcome.loadError := by
  exact ⟨rfl, by decide⟩

/-- C8: set_budget with a parseable value overwrites the budget with
exactly that value, whatever the prior budget was (no merge, no
accumulation), leaving the expenses untouched; with an unparsable value it
yields a validation error and changes nothing. -/
theorem set_budget_correct :
    (∀ st : ExpenseTracker, ∀ q : ℚ,
      setBudget st (some q) =
        ({ expenses := st.expenses, budget := q }, AddResult.success)) ∧
    (∀ st : ExpenseTracker,
      setBudget st none = (st, AddResult.validationError)) := by
  exact ⟨fun st q => rfl, fun st => rfl⟩

/-- C9 (amended): the menu selections for save (5) and load (6) read no
further input line at all; the operation always runs on the default path
expenses.csv, the input stream being handed over untouched. -/
theorem menu_save_load_default_path (w : World) (stream : List String) :
    menuStep w "5" stream =
      { world := { tracker := w.tracker,
                   fs := fsWrite w.fs "expenses.csv" (saveExpenses w.tracker) },
        stream := stream, exited := false } ∧
    menuStep w "6" stream =
      { world := { tracker := (loadExpenses (w.fs "expenses.csv") w.tracker).1,
                   fs := w.fs },
        stream := stream, exited := false } := by
  exact ⟨rfl, rfl⟩

/-- C9 counterexample: with a pending input line myfile.csv, the save
selection does not consume it as a filename: the stream is left untouched,
the store is saved at the default path expenses.csv, and nothing is
written at myfile.csv. -/
theorem menu_save_ignores_provided_filename :
    (menuStep { tracker := { expenses := [], budget := 0 },
                fs := fun _ => CsvFile.absent } "5" ["myfile.csv"]).stream =
      ["myfile.csv"] ∧
    (menuStep { tracker := { expenses := [], budget := 0 },
                fs := fun _ => CsvFile.absent } "5" ["myfile.csv"]).world.fs
        "expenses.csv" = CsvFile.file [stdHeader] ∧
    (menuStep { tracker := { expenses := [], budget := 0 },
                fs := fun _ => CsvFile.absent } "5" ["myfile.csv"]).world.fs
        "myfile.csv" = CsvFile.absent := by
  refine ⟨rfl, rfl, rfl⟩

/-- C4 counterexample: the date 2024-1-1 does not match YYYY-MM-DD (its
month and day are single digits), yet add_expense accepts it: strptime is
lenient about zero padding, so no validation error is signalled and the
record is appended. -/
theorem add_accepts_unpadded_date :
    specMatchesYYYYMMDD "2024-1-1" = false ∧
    strptimeValidYMD "2024-1-1" = true ∧
    addExpense { expenses := [], budget := 0 } "2024-1-1" "Food" (some 5) "x" =
      ({ expenses := [{ date := some "2024-1-1", category := some "Food",
                        amount := 5, description := some "x" }], budget := 0 },
       AddResult.success) := by
  refine ⟨by decide, by decide, rfl⟩

/-- C4 (amended): add with a date the %Y-%m-%d parse rejects (any string
that is not four digits, one or two digits 1-12, and one or two digits
giving a day existing in that month, hyphen-separated - e.g. 2024-02-30 or
2024-13-01; but NOT the accepted unpadded 2024-1-1), or with an amount
float cannot parse, signals a validation error and performs no mutation:
the returned state is exactly the old one. -/
theorem add_invalid_input_rejected (st : ExpenseTracker)
    (date category description : String) (amount : Option ℚ)
    (h : strptimeValidYMD date = false ∨ amount = none) :
    addExpense st date category amount description =
      (st, AddResult.validationError) := by
  unfold addExpense
  rcases h with h | h
  · simp [h]
  · subst h
    split_ifs with hd
    · rfl
    · rfl

/-- Witness for add_invalid_input_rejected at the claim's own example
2024-13-01: the date is rejected and the state is returned unchanged. -/
theorem add_invalid_input_rejected_witness :
    (strptimeValidYMD "2024-13-01" = false ∨ (some (5 : ℚ) : Option ℚ) = none) ∧
    addExpense { expenses := [], budget := 3 } "2024-13-01" "Food" (some 5) "x" =
      ({ expenses := [], budget := 3 }, AddResult.validationError) :=
  ⟨Or.inl (by decide),
   add_invalid_input_rejected { expenses := [], budget := 3 } "2024-13-01"
     "Food" "x" (some 5) (Or.inl (by decide))⟩

/-- C1 (code bug): for the valid input tuple (2024-01-01, Food, 0, Lunch)
add succeeds and appends exactly that record (the count grows from 0 to
1), but the subsequent view does not produce a line reflecting the four
values: all(expense.values()) tests truthiness, the float 0.0 is falsy,
and the freshly added record is skipped with the incomplete-entry
indicator. -/
theorem add_zero_amount_then_view_skips :
    (addExpense { expenses := [], budget := 0 } "2024-01-01" "Food" (some 0)
        "Lunch").2 = AddResult.success ∧
    (addExpense { expenses := [], budget := 0 } "2024-01-01" "Food" (some 0)
        "Lunch").1.expenses =
      [{ date := some "2024-01-01", category := some "Food", amount := 0,
         description := some "Lunch" }] ∧
    viewExpenses (addExpense { expenses := [], budget := 0 } "2024-01-01"
        "Food" (some 0) "Lunch").1 =
      [ViewLine.header, ViewLine.incomplete, ViewLine.blank] := by
  refine ⟨rfl, rfl, rfl⟩

/-- C5 (code bug): an empty store views as the single no-expenses
indicator; but the skip test is truthiness, not presence: a record whose
four fields are all present (wellFormed) with an empty description string
is skipped with the incomplete-entry indicator, while the listing does
continue with the following record. -/
theorem view_skips_record_with_all_fields_present :
    viewExpenses { expenses := [], budget := 0 } = [ViewLine.noExpenses] ∧
    wellFormed { date := some "2024-01-02", category := some "Food",
                 amount := 5, description := some "" } = true ∧
    viewExpenses { expenses :=
        [{ date := some "2024-01-02", category := some "Food", amount := 5,
           description := some "" },
         { date := some "2024-01-03", category := some "Travel", amount := 7,
           description := some "taxi" }], budget := 0 } =
      [ViewLine.header, ViewLine.incomplete,
       ViewLine.entry { date := some "2024-01-03", category := some "Travel",
                        amount := 7, description := some "taxi" },
       ViewLine.blank] := by
  refine ⟨rfl, by decide, rfl⟩

/-- add_expense only ever appends: the prior records survive as a prefix. -/
theorem addExpense_extends (st : ExpenseTracker) (date category : String)
    (amount : Option ℚ) (description : String) :
    ∃ t, (addExpense st date category amount description).1.expenses =
      st.expenses ++ t := by
  unfold addExpense
  split_ifs with hd
  · cases amount with
    | some q => exact ⟨_, rfl⟩
    | none => exact ⟨[], by simp⟩
  · exact ⟨[], by simp⟩

/-- load_expenses only ever appends: the prior records survive as a
prefix, whatever the file holds. -/
theorem loadExpenses_extends (f : CsvFile) (st : ExpenseTracker) :
    ∃ t, (loadExpenses f st).1.expenses = st.expenses ++ t := by
  cases f with
  | absent => exact ⟨[], by simp [loadExpenses]⟩
  | file rows =>
    cases rows with
    | nil => exact ⟨[], by simp [loadExpenses]⟩
    | cons header rest => exact ⟨_, rfl⟩

/-- C10: every menu operation (add, view, set budget, track, save, load,
exit, and the invalid-option branch) leaves the records that were already
stored in place, unmodified and in order: the old expenses list is an
initial segment of the new one, so its length never decreases. -/
theorem menu_append_only (w : World) (choice : String) (stream : List String) :
    ∃ t, (menuStep w choice stream).world.tracker.expenses =
      w.tracker.expenses ++ t := by
  unfold menuStep
  split_ifs with h1 h2 h3 h4 h5 h6 h7
  · -- choice "1": add_expense
    by_cases hd : strptimeValidYMD (take1 stream).1
    · simp only [hd, if_true]
      cases hp : pyFloat (take1 (take1 (take1 stream).2).2).1 with
      | some q => simpa using addExpense_extends w.tracker _ _ (some q) _
      | none => exact ⟨[], by simp⟩
    · simp only [hd, if_false]
      exact ⟨[], by simp⟩
  · exact ⟨[], by simp⟩
  · -- choice "3": set_budget never touches expenses
    cases hv : pyFloat (take1 stream).1 with
    | some q => exact ⟨[], by simp [setBudget, hv]⟩
    | none => exact ⟨[], by simp [setBudget, hv]⟩
  · exact ⟨[], by simp⟩
  · exact ⟨[], by simp⟩
  · simpa using loadExpenses_extends (w.fs "expenses.csv") w.tracker
  · exact ⟨[], by simp⟩
  · exact ⟨[], by simp⟩

/-- With the standard header, row['date'] is the first cell of the row. -/
theorem cellLookup_std_date (row : CsvRow) :
    cellLookup stdHeader row "date" = some (row.get? 0) := rfl

/-- With the standard header, row['category'] is the second cell. -/
theorem cellLookup_std_category (row : CsvRow) :
    cellLookup stdHeader row "category" = some (row.get? 1) := rfl

/-- With the standard header, row['amount'] is the third cell. -/
theorem cellLookup_std_amount (row : CsvRow) :
    cellLookup stdHeader row "amount" = some (row.get? 2) := rfl

/-- With the standard header, row['description'] is the fourth cell. -/
theorem cellLookup_std_description (row : CsvRow) :
    cellLookup stdHeader row "description" = some (row.get? 3) := rfl

/-- Loading back the rows save_expenses wrote for records holding all four
fields appends exactly those records, in order, and succeeds. -/
theorem loadRows_saved (l : List ExpenseRecord) (acc : List ExpenseRecord)
    (h : ∀ r ∈ l, wellFormed r = true) :
    loadRows stdHeader (l.map saveRow) acc = (acc ++ l, LoadOutcome.success) := by
  induction l generalizing acc with
  | nil => simp [loadRows]
  | cons e rest ih =>
    obtain ⟨ed, ec, ea, eds⟩ := e
    have he : wellFormed ⟨ed, ec, ea, eds⟩ = true := h _ (by simp)
    simp only [wellFormed, Bool.and_eq_true, Option.isSome_iff_exists] at he
    obtain ⟨⟨⟨d, hd⟩, c, hc⟩, ds, hds⟩ := he
    subst hd hc hds
    have hrest : ∀ r ∈ rest, wellFormed r = true :=
      fun r hr => h r (List.mem_cons_of_mem _ hr)
    simp only [List.map_cons, saveRow, Option.getD_some, loadRows,
      List.isEmpty_cons, cellLookup_std_amount, List.get?_cons_succ,
      List.get?_cons_zero, amountValue, cellFloat, Bool.false_eq_true,
      if_false, loadRec, cellLookup_std_date, cellLookup_std_category,
      cellLookup_std_description, textField]
    rw [ih _ hrest]
    simp

/-- C3: saving a store whose records all hold their four fields (as every
record produced by a successful add does) and loading the file into a
fresh empty store reproduces exactly the same records in the same order,
with the success outcome. -/
theorem save_load_round_trip (st : ExpenseTracker)
    (h : ∀ r ∈ st.expenses, wellFormed r = true) :
    loadExpenses (saveExpenses st) { expenses := [], budget := 0 } =
      ({ expenses := st.expenses, budget := 0 }, LoadOutcome.success) := by
  simp only [saveExpenses, loadExpenses]
  rw [loadRows_saved st.expenses [] h]
  simp

/-- Witness for save_load_round_trip on the one-record sample store. -/
theorem save_load_round_trip_witness :
    (∀ r ∈ sampleStore.expenses, wellFormed r = true) ∧
    loadExpenses (saveExpenses sampleStore) { expenses := [], budget := 0 } =
      ({ expenses := sampleStore.expenses, budget := 0 },
       LoadOutcome.success) :=
  ⟨by decide, save_load_round_trip sampleStore (by decide)⟩

/-- Loading well-formed four-column rows with the standard header appends
one record per row and succeeds. -/
theorem loadRows_valid (rows : List CsvRow) (acc : List ExpenseRecord)
    (h : ∀ row ∈ rows, validRow row = true) :
    ∃ recs, loadRows stdHeader rows acc = (acc ++ recs, LoadOutcome.success) ∧
      recs.length = rows.length := by
  induction rows generalizing acc with
  | nil => exact ⟨[], by simp [loadRows], rfl⟩
  | cons row rest ih =>
    have hrow : validRow row = true := h row (by simp)
    have hrest : ∀ r ∈ rest, validRow r = true :=
      fun r hr => h r (List.mem_cons_of_mem _ hr)
    rcases row with _ | ⟨a, _ | ⟨b, _ | ⟨c, _ | ⟨d, _ | ⟨e5, tl⟩⟩⟩⟩⟩ <;>
      simp [validRow] at hrow
    obtain ⟨q, hq⟩ := Option.isSome_iff_exists.mp hrow
    obtain ⟨recs, hr, hl⟩ := ih (acc ++ [loadRec stdHeader [a, b, c, d] q]) hrest
    refine ⟨loadRec stdHeader [a, b, c, d] q :: recs, ?_, by simp [hl]⟩
    simp only [loadRows, List.isEmpty_cons, Bool.false_eq_true, if_false,
      cellLookup_std_amount, List.get?_cons_succ, List.get?_cons_zero,
      amountValue, hq]
    rw [hr]
    simp

/-- C7: loading the same valid file (standard header, n well-formed data
rows) twice into the same store appends its n records each time: the
record count afterwards is the old count plus 2 n. -/
theorem load_twice_doubles (st : ExpenseTracker) (rows : List CsvRow)
    (h : ∀ row ∈ rows, validRow row = true) :
    (loadExpenses (CsvFile.file (stdHeader :: rows))
        (loadExpenses (CsvFile.file (stdHeader :: rows)) st).1).1.expenses.length =
      st.expenses.length + 2 * rows.length := by
  obtain ⟨recs, hr, hl⟩ := loadRows_valid rows [] h
  simp only [loadExpenses, hr]
  simp [hl]
  ring

/-- Witness for load_twice_doubles on a one-row file and an empty store. -/
theorem load_twice_doubles_witness :
    (∀ row ∈ [sampleRow], validRow row = true) ∧
    (loadExpenses (CsvFile.file (stdHeader :: [sampleRow]))
        (loadExpenses (CsvFile.file (stdHeader :: [sampleRow]))
          { expenses := [], budget := 0 }).1).1.expenses.length =
      ({ expenses := [], budget := 0 } : ExpenseTracker).expenses.length +
        2 * [sampleRow].length :=
  ⟨by decide,
   load_twice_doubles { expenses := [], budget := 0 } [sampleRow] (by decide)⟩

/-- Spot checks of the float model: plain decimal forms parse (with
whitespace, sign, a trailing or leading point), junk does not. -/
theorem pyFloat_model_checks :
    (pyFloat " 12.5 ").isSome = true ∧
    (pyFloat "-3.").isSome = true ∧
    (pyFloat ".5").isSome = true ∧
    pyFloat "abc" = none ∧
    pyFloat "." = none ∧
    pyFloat "" = none := by
  refine ⟨by decide, by decide, by decide, by decide, by decide, by decide⟩
